import Mathlib

/-!
Verification of the call session controller of the `twilio-web` repository.

The controller lives in `TwilioClientContext.tsx` (the provider component
`TwilioClientProvider`): it owns the Twilio `Device` lifecycle, the state of at
most one tracked call, the bounded diagnostic event feed, and the bridge to the
persisted call-log records (`services/userCallLogs.ts`).

The shallow embedding below translates the relevant functions into pure Lean
functions over an explicit controller state.  Asynchronous external
collaborators (token endpoint, Twilio SDK, Firestore) are modelled by
parameters carrying their outcomes; SDK event handlers become explicit state
transitions that theorems apply in the order the events would be delivered.
Randomly generated event-entry ids and `Date.now()` readings are inputs
(threaded through an `Env` record), since they come from outside the program.
-/

set_option autoImplicit false

namespace TwilioWeb

/-! ### Basic data model (types from `TwilioClientContext.tsx`) -/

/-- `ConnectionState` union type of the source. -/
inductive ConnectionState
  | idle
  | initialising
  | registered
  | error
  | disconnected
deriving DecidableEq, Repr

/-- `CallState` union type of the source. -/
inductive CallState
  | idle
  | connecting
  | ringing
  | incoming
  | active
  | held
  | completed
  | failed
deriving DecidableEq, Repr

/-- `EventEntry = { id, at, message }`.  The source field `at` is a Lean
keyword, so it is rendered `atTime`. -/
structure EventEntry where
  id : String
  atTime : Nat
  message : String
deriving DecidableEq, Repr

/-- `const MAX_EVENT_ENTRIES = 100`. -/
def MAX_EVENT_ENTRIES : Nat := 100

/-- `pushEvent` (lines 117-126): builds the new entry and prepends it, then
truncates to the capacity: `[{id, at, message}, ...prev].slice(0, MAX_EVENT_ENTRIES)`.
The random id and the `Date.now()` stamp are parameters. -/
def pushEvent (id : String) (now : Nat) (message : String)
    (prev : List EventEntry) : List EventEntry :=
  ({ id := id, atTime := now, message := message } :: prev).take MAX_EVENT_ENTRIES

/-! ### Claim C7: event feed capacity -/

/-- Claim C7: the Event Feed never holds more than 100 entries: push inserts the
new entry at the head (most-recent-first); pushing a 101st entry while the feed
holds 100 evicts the oldest (last) entry, leaving all other entries and their
order unchanged; pushing below capacity keeps every previous entry. -/
theorem c7_event_feed_capacity (id : String) (now : Nat) (message : String)
    (prev : List EventEntry) (hlen : prev.length ≤ 100) :
    (pushEvent id now message prev).length ≤ 100 ∧
    (prev.length < 100 →
      pushEvent id now message prev =
        { id := id, atTime := now, message := message } :: prev) ∧
    (prev.length = 100 →
      pushEvent id now message prev =
        { id := id, atTime := now, message := message } :: prev.dropLast) := by
  refine ⟨?_, ?_, ?_⟩
  · simp only [pushEvent, MAX_EVENT_ENTRIES]
    exact le_trans (List.length_take_le _ _) (le_refl _)
  · intro hlt
    simp only [pushEvent, MAX_EVENT_ENTRIES]
    rw [List.take_of_length_le]
    simp only [List.length_cons]
    omega
  · intro heq
    simp only [pushEvent, MAX_EVENT_ENTRIES]
    rw [show (100 : Nat) = 99 + 1 from rfl, List.take_succ_cons,
      List.dropLast_eq_take, heq]

/-- Witness for `c7_event_feed_capacity`: pushing onto a feed already holding
100 entries keeps the length at 100 and evicts the oldest entry. -/
theorem c7_event_feed_capacity_witness :
    (List.replicate 100 ({ id := "e", atTime := 0, message := "m" } : EventEntry)).length ≤ 100 ∧
    (pushEvent "f" 7 "new" (List.replicate 100 { id := "e", atTime := 0, message := "m" })).length ≤ 100 ∧
    pushEvent "f" 7 "new" (List.replicate 100 { id := "e", atTime := 0, message := "m" }) =
      { id := "f", atTime := 7, message := "new" } ::
        (List.replicate 100 ({ id := "e", atTime := 0, message := "m" } : EventEntry)).dropLast := by
  have h := c7_event_feed_capacity "f" 7 "new"
    (List.replicate 100 { id := "e", atTime := 0, message := "m" }) (by simp)
  exact ⟨by simp, h.1, h.2.2 (by simp)⟩

/-! ### String helpers of the source

JS `String.prototype.trim` and the regex replacements are modelled over the
character list of the string (ASCII whitespace suffices for every string the
claims touch). -/

/-- ASCII whitespace, the relevant fragment of the JS `trim` character class. -/
def jsWhitespace (c : Char) : Bool :=
  c = ' ' || c = '\t' || c = '\n' || c = '\r' || c = '\x0b' || c = '\x0c'

/-- JS `value.trim()`: strip leading and trailing whitespace. -/
def jsTrim (s : String) : String :=
  String.mk (((s.data.dropWhile jsWhitespace).reverse.dropWhile jsWhitespace).reverse)

/-- Characters kept by `sanitizeIdentity`: the class `[a-zA-Z0-9_\-@.]`. -/
def identChar (c : Char) : Bool :=
  ('a' ≤ c && c ≤ 'z') || ('A' ≤ c && c ≤ 'Z') || ('0' ≤ c && c ≤ '9') ||
    c = '_' || c = '-' || c = '@' || c = '.'

/-- `sanitizeIdentity` (lines 60-65): fall back when the value is missing or
blank, otherwise replace every character outside `[a-zA-Z0-9_\-@.]` with `_`.
A JS falsy empty string is modelled by `some ""`, which also lands in the
fallback branch via the blank-trim check. -/
def sanitizeIdentity (value : Option String) (fallback : String) : String :=
  match value with
  | none => fallback
  | some v =>
    let trimmed := jsTrim v
    if trimmed = "" then fallback
    else String.mk (trimmed.data.map fun c => if identChar c then c else '_')

/-- `normalisePhoneNumber` (lines 67-73): keep `[0-9+]`, prefix `+` when
missing; `none` when nothing remains. -/
def normalisePhoneNumber (value : Option String) : Option String :=
  match value with
  | none => none
  | some v =>
    let digits := String.mk (v.data.filter fun c => c.isDigit || c = '+')
    match digits.data with
    | [] => none
    | c :: _ => if c = '+' then some digits else some ("+" ++ digits)

/-! ### Connection objects and controller state

A Twilio `Call`/connection object is modelled by a record: `cid` stands for
JS object identity (the source compares connections with `===`), the `muted`
and `held` fields are the SDK-side state mutated by `mute`/`hold`, the
`has...` flags model the optional-chaining checks of the source
(`connection.isMuted?.()`, `typeof connection.hold === 'function'`), the
`...Fails` flags model the SDK call throwing, with `failMsg` the message of
the thrown error. -/
structure ConnObj where
  cid : Nat
  muted : Bool
  held : Bool
  hasIsMuted : Bool
  hasIsOnHold : Bool
  hasHold : Bool
  muteFails : Bool
  holdFails : Bool
  sendDigitsFails : Bool
  failMsg : String
  paramsFrom : Option String
  paramsTo : Option String
deriving DecidableEq, Repr

/-- The React state and refs of `TwilioClientProvider` that the claims touch.
`activeConn`/`incomingConn` bundle `activeConnectionRef`/`incomingConnectionRef`
with the SDK-side state of the referenced connection object; `deviceRef` holds
the identity of the owned `Device` instance.  The token-refresh timer handle is
not represented (no claim observes it). -/
structure ControllerState where
  connState : ConnectionState
  connMessage : String
  callState : CallState
  events : List EventEntry
  isClientReady : Bool
  isMuted : Bool
  isOnHold : Bool
  lastError : Option String
  incomingNumber : Option String
  activeNumber : Option String
  identityRef : String
  deviceRef : Option Nat
  activeConn : Option ConnObj
  incomingConn : Option ConnObj
  activeLogIdRef : Option String
  activeCallStartedAtRef : Option Nat
  callNoteRef : String
deriving DecidableEq, Repr

/-- Updates passed to `finalizeUserCallLog` by `finalizeActiveLog`: the `note`
key is present only when the trimmed note buffer is non-empty, `statusReason`
models the optional `extra` spread (`{ statusReason }`). -/
structure FinalizeUpdates where
  status : String
  durationSeconds : Int
  note : Option String
  statusReason : Option String
deriving DecidableEq, Repr

/-- The controller state together with its externally observable output: the
`writes` list records each `finalizeUserCallLog(uid, logId, updates)` call (in
call order) and `sent` records each successful `connection.sendDigits` payload. -/
structure World where
  ctrl : ControllerState
  writes : List (String × FinalizeUpdates)
  sent : List String
deriving DecidableEq, Repr

/-- The authenticated Firebase user as the controller sees it. -/
structure UserT where
  uid : String
  email : Option String
deriving DecidableEq, Repr

/-- Ambient inputs of a transition: the signed-in user (if any), the
`Date.now()` reading, the random id the next event entry receives, and whether
the Firestore call inside `finalizeActiveLog` succeeds. -/
structure Env where
  user : Option UserT
  now : Nat
  eid : String
  persistOk : Bool
deriving DecidableEq, Repr

/-- Push a diagnostic message through `pushEvent` into the world. -/
def pushEventW (env : Env) (message : String) (w : World) : World :=
  { w with ctrl := { w.ctrl with events := pushEvent env.eid env.now message w.ctrl.events } }

/-! ### Call log bridge (`finalizeActiveLog`, lines 180-205) -/

/-- JS `Math.round(d / 1000)` for an integer count `d` of milliseconds:
`Math.round x = ⌊x + 1/2⌋` (half away from negative infinity), hence
`⌊(2*d + 1000) / 2000⌋` with floor division. -/
def jsRoundMilli (d : Int) : Int :=
  Int.fdiv (2 * d + 1000) 2000

/-- The `updates` record that `finalizeActiveLog` passes to
`finalizeUserCallLog`: `durationSeconds` is
`startedAt ? Math.max(Math.round((Date.now() - startedAt)/1000), 0) : 0`, the
`note` key is present only when the trimmed note buffer is non-empty, and
`statusReason` carries the optional `extra` spread. -/
def finalizeUpd (env : Env) (status : String) (extraReason : Option String)
    (w : World) : FinalizeUpdates :=
  { status := status
    durationSeconds :=
      match w.ctrl.activeCallStartedAtRef with
      | some s => max (jsRoundMilli ((env.now : Int) - (s : Int))) 0
      | none => 0
    note :=
      if jsTrim w.ctrl.callNoteRef = "" then none else some (jsTrim w.ctrl.callNoteRef)
    statusReason := extraReason }

/-- `finalizeActiveLog(status, extra?)`: no-op without a user or a pending log
id; otherwise clears the log id, the start timestamp and the note buffer,
issues the `finalizeUserCallLog` write (`finalizeUpd` above), and on
persistence failure logs to the event feed (the error is caught, never
rethrown). -/
def finalizeActiveLog (env : Env) (status : String) (extraReason : Option String)
    (w : World) : World :=
  match env.user, w.ctrl.activeLogIdRef with
  | none, _ => w
  | some _, none => w
  | some _, some logId =>
    let w := { w with
      ctrl := { w.ctrl with
        activeLogIdRef := none
        activeCallStartedAtRef := none
        callNoteRef := "" }
      writes := w.writes ++ [(logId, finalizeUpd env status extraReason w)] }
    if env.persistOk then w
    else pushEventW env "Unable to update call log with final status" w

/-- With no pending log id, `finalizeActiveLog` leaves the world untouched. -/
theorem finalizeActiveLog_noop (env : Env) (status : String)
    (extraReason : Option String) (w : World)
    (h : w.ctrl.activeLogIdRef = none) :
    finalizeActiveLog env status extraReason w = w := by
  unfold finalizeActiveLog
  cases env.user <;> simp [h]

/-- With a user and a pending log id, `finalizeActiveLog` appends exactly the
`finalizeUpd` write and clears the log id. -/
theorem finalizeActiveLog_fires (env : Env) (status : String)
    (extraReason : Option String) (w : World) (u : UserT) (lid : String)
    (hu : env.user = some u) (hl : w.ctrl.activeLogIdRef = some lid) :
    (finalizeActiveLog env status extraReason w).writes =
      w.writes ++ [(lid, finalizeUpd env status extraReason w)] ∧
    (finalizeActiveLog env status extraReason w).ctrl.activeLogIdRef = none := by
  unfold finalizeActiveLog
  rw [hu, hl]
  dsimp only
  constructor <;> (split <;> simp [pushEventW])

/-! ### Persistence layer (`services/userCallLogs.ts`) -/

/-- Value written into the Firestore `note` field: a concrete string, or the
`deleteField()` sentinel that removes the field. -/
inductive FieldWrite
  | set (s : String)
  | del
deriving DecidableEq, Repr

/-- Document update produced by `finalizeUserCallLog`. -/
structure PersistPayload where
  status : String
  durationSeconds : Int
  noteField : FieldWrite
  statusReasonField : Option String
  endedAtSet : Bool
deriving DecidableEq, Repr

/-- `finalizeUserCallLog(userId, logId, updates)` (lines 26-38 of
`userCallLogs.ts`): trims the note when it is a string (empty otherwise),
spreads `updates` and overrides `note` with the trimmed value or
`deleteField()`, and always sets `endedAt: serverTimestamp()`. -/
def finalizeUserCallLog (updates : FinalizeUpdates) : PersistPayload :=
  let note :=
    match updates.note with
    | some s => jsTrim s
    | none => ""
  { status := updates.status
    durationSeconds := updates.durationSeconds
    noteField := if 0 < note.length then FieldWrite.set note else FieldWrite.del
    statusReasonField := updates.statusReason
    endedAtSet := true }

/-- `Math.round(d/1000)` is the nearest-second rounding: it lands within half a
second of the exact quotient, and is non-negative for non-negative input. -/
theorem jsRoundMilli_near (d : Int) (hd : 0 ≤ d) :
    (1000 * jsRoundMilli d - d).natAbs ≤ 500 ∧ 0 ≤ jsRoundMilli d := by
  unfold jsRoundMilli
  rw [Int.fdiv_eq_ediv _ (by norm_num)]
  have h1 := Int.ediv_add_emod (2 * d + 1000) 2000
  have h2 := Int.emod_nonneg (2 * d + 1000) (by norm_num : (2000 : Int) ≠ 0)
  have h3 := Int.emod_lt_of_pos (2 * d + 1000) (by norm_num : (0 : Int) < 2000)
  omega

/-! ### Claim C4: exactly-once log finalization -/

/-- Claim C4: when a user is signed in and a log id is pending, a terminal
event finalizes the call log exactly once: one `finalizeUserCallLog` write is
appended, carrying the requested status, a duration that is always ≥ 0, equal
to 0 when the call never connected (`startedAt` unset) and within half a
second of the exact elapsed time `now - startedAt` otherwise (whole-second
rounding); and a second terminal event for the same call is a no-op — the
repeated `finalizeActiveLog` leaves the world untouched and issues no second
write. -/
theorem c4_finalize_exactly_once (env env2 : Env) (status status2 : String)
    (extra extra2 : Option String) (w : World) (lid : String)
    (hu : env.user.isSome = true) (hl : w.ctrl.activeLogIdRef = some lid) :
    (∃ upd : FinalizeUpdates,
      (finalizeActiveLog env status extra w).writes = w.writes ++ [(lid, upd)] ∧
      upd.status = status ∧
      0 ≤ upd.durationSeconds ∧
      (w.ctrl.activeCallStartedAtRef = none → upd.durationSeconds = 0) ∧
      (∀ s : Nat, w.ctrl.activeCallStartedAtRef = some s → s ≤ env.now →
        (1000 * upd.durationSeconds - ((env.now : Int) - (s : Int))).natAbs ≤ 500)) ∧
    finalizeActiveLog env2 status2 extra2 (finalizeActiveLog env status extra w) =
      finalizeActiveLog env status extra w := by
  obtain ⟨u, hu⟩ := Option.isSome_iff_exists.mp hu
  have hfire := finalizeActiveLog_fires env status extra w u lid hu hl
  constructor
  · refine ⟨finalizeUpd env status extra w, hfire.1, rfl, ?_, ?_, ?_⟩
    · unfold finalizeUpd
      cases hs : w.ctrl.activeCallStartedAtRef with
      | none => simp
      | some s => simp only; exact le_max_right _ _
    · intro hnone
      simp [finalizeUpd, hnone]
    · intro s hs hle
      simp only [finalizeUpd, hs]
      have hd : (0 : Int) ≤ (env.now : Int) - (s : Int) := by omega
      have h := jsRoundMilli_near ((env.now : Int) - (s : Int)) hd
      rw [max_eq_left h.2]
      exact h.1
  · exact finalizeActiveLog_noop env2 status2 extra2 _ hfire.2

/-- Witness for `c4_finalize_exactly_once` at a concrete world: one write is
appended, and repeating the finalization changes nothing. -/
theorem c4_finalize_exactly_once_witness :
    (finalizeActiveLog
      { user := some { uid := "u1", email := none }, now := 4600, eid := "e1", persistOk := true }
      "completed" none
      { ctrl := { connState := ConnectionState.registered, connMessage := "ok",
                  callState := CallState.active, events := [], isClientReady := true,
                  isMuted := false, isOnHold := false, lastError := none,
                  incomingNumber := none, activeNumber := some "+15550100",
                  identityRef := "agent", deviceRef := some 0, activeConn := none,
                  incomingConn := none, activeLogIdRef := some "log1",
                  activeCallStartedAtRef := some 1000, callNoteRef := "" },
        writes := [], sent := [] }).writes.length = 1 ∧
    finalizeActiveLog
      { user := some { uid := "u1", email := none }, now := 5000, eid := "e2", persistOk := true }
      "failed" none
      (finalizeActiveLog
        { user := some { uid := "u1", email := none }, now := 4600, eid := "e1", persistOk := true }
        "completed" none
        { ctrl := { connState := ConnectionState.registered, connMessage := "ok",
                    callState := CallState.active, events := [], isClientReady := true,
                    isMuted := false, isOnHold := false, lastError := none,
                    incomingNumber := none, activeNumber := some "+15550100",
                    identityRef := "agent", deviceRef := some 0, activeConn := none,
                    incomingConn := none, activeLogIdRef := some "log1",
                    activeCallStartedAtRef := some 1000, callNoteRef := "" },
          writes := [], sent := [] }) =
      finalizeActiveLog
        { user := some { uid := "u1", email := none }, now := 4600, eid := "e1", persistOk := true }
        "completed" none
        { ctrl := { connState := ConnectionState.registered, connMessage := "ok",
                    callState := CallState.active, events := [], isClientReady := true,
                    isMuted := false, isOnHold := false, lastError := none,
                    incomingNumber := none, activeNumber := some "+15550100",
                    identityRef := "agent", deviceRef := some 0, activeConn := none,
                    incomingConn := none, activeLogIdRef := some "log1",
                    activeCallStartedAtRef := some 1000, callNoteRef := "" },
          writes := [], sent := [] } := by
  have h := c4_finalize_exactly_once
    { user := some { uid := "u1", email := none }, now := 4600, eid := "e1", persistOk := true }
    { user := some { uid := "u1", email := none }, now := 5000, eid := "e2", persistOk := true }
    "completed" "failed" none none
    { ctrl := { connState := ConnectionState.registered, connMessage := "ok",
                callState := CallState.active, events := [], isClientReady := true,
                isMuted := false, isOnHold := false, lastError := none,
                incomingNumber := none, activeNumber := some "+15550100",
                identityRef := "agent", deviceRef := some 0, activeConn := none,
                incomingConn := none, activeLogIdRef := some "log1",
                activeCallStartedAtRef := some 1000, callNoteRef := "" },
      writes := [], sent := [] }
    "log1" (by decide) (by decide)
  refine ⟨?_, h.2⟩
  obtain ⟨upd, hw, -⟩ := h.1
  rw [hw]
  simp

/-! ### Claim C10: note trimming at persistence -/

/-- Claim C10: `finalizeUserCallLog` trims the note of surrounding whitespace
before persisting; when the trimmed note is empty (or no note is given) the
`note` field is deleted (`deleteField()`) rather than stored as an empty
string, and `endedAt` is always set. -/
theorem c10_finalize_note_handling (updates : FinalizeUpdates) :
    (finalizeUserCallLog updates).endedAtSet = true ∧
    (∀ s : String, updates.note = some s → 0 < (jsTrim s).length →
      (finalizeUserCallLog updates).noteField = FieldWrite.set (jsTrim s)) ∧
    ((updates.note = none ∨ ∃ s, updates.note = some s ∧ jsTrim s = "") →
      (finalizeUserCallLog updates).noteField = FieldWrite.del) ∧
    (finalizeUserCallLog updates).noteField ≠ FieldWrite.set "" := by
  refine ⟨rfl, ?_, ?_, ?_⟩
  · intro s hs hpos
    simp [finalizeUserCallLog, hs, hpos]
  · rintro (hnone | ⟨s, hs, hempty⟩)
    · simp [finalizeUserCallLog, hnone]
    · simp [finalizeUserCallLog, hs, hempty]
  · simp only [finalizeUserCallLog]
    split
    · rename_i hpos
      intro hset
      injection hset with hnote
      rw [hnote] at hpos
      exact absurd hpos (by decide)
    · intro hset
      exact FieldWrite.noConfusion hset

/-- Witness for `c10_finalize_note_handling`: a whitespace-only note is
deleted rather than stored empty, and `endedAt` is set. -/
theorem c10_finalize_note_handling_witness :
    (finalizeUserCallLog
      { status := "completed", durationSeconds := 3, note := some "   ",
        statusReason := none }).noteField = FieldWrite.del ∧
    (finalizeUserCallLog
      { status := "completed", durationSeconds := 3, note := some "   ",
        statusReason := none }).endedAtSet = true := by
  have h := c10_finalize_note_handling
    { status := "completed", durationSeconds := 3, note := some "   ", statusReason := none }
  exact ⟨h.2.2.1 (Or.inr ⟨"   ", rfl, by decide⟩), h.1⟩

/-! ### Device lifecycle (`clearDevice`, `initializeClient`, lines 128-339)

`initializeClient` is asynchronous; `initializeClientSeq` is its sequential
execution (no interleaving between its suspension points), with the outcomes of
the awaited externals — the token fetch and `device.register()` — passed as
parameters, and the identity of the freshly constructed `Device` given by
`newDeviceId`.  The interleaved two-caller behaviour is modelled separately by
the `Init` step machine below. -/

/-- `clearDevice` (lines 128-147): destroy the device, drop all connection
refs, cancel the refresh timer (not represented), mark the client not ready
and the connection `disconnected`. -/
def clearDevice (st : ControllerState) : ControllerState :=
  { st with
    deviceRef := none
    activeConn := none
    incomingConn := none
    isClientReady := false
    connState := ConnectionState.disconnected
    connMessage := "Twilio client disconnected" }

/-- Response of the token endpoint (`identity` may be absent in the source's
`tokenResponse.identity ?? identity` fallback, so it is optional here). -/
structure TokenResp where
  token : String
  identity : Option String
  expiresIn : Option Nat
deriving DecidableEq, Repr

/-- `initializeClient` (lines 207-339) run sequentially: reject without a
user; return the existing device when one exists and the client is ready;
otherwise clear any stale device, mark `initialising`, fetch a token
(outcome `tokenResult`), construct a new `Device` (identity `newDeviceId`),
store it in `deviceRef`, and await `register()` (outcome `registerResult`).
The token-refresh scheduling touches only the timer, which is not
represented. -/
def initializeClientSeq (env : Env) (tokenResult : Except String TokenResp)
    (newDeviceId : Nat) (registerResult : Except String Unit)
    (st : ControllerState) : ControllerState × Except String Nat :=
  match env.user with
  | none => (st, Except.error "Twilio client requires an authenticated user")
  | some user =>
    if st.deviceRef.isSome && st.isClientReady then
      (st, Except.ok (st.deviceRef.getD 0))
    else
      let st := if st.deviceRef.isSome then clearDevice st else st
      let identity :=
        sanitizeIdentity (some ((user.email).getD user.uid)) "agent"
      let st := { st with
        identityRef := identity
        connState := ConnectionState.initialising
        connMessage := "Initialising Twilio device"
        events := pushEvent env.eid env.now
          ("Requesting Twilio token for " ++ identity) st.events }
      match tokenResult with
      | Except.error e => (st, Except.error e)
      | Except.ok tok =>
        let st := { st with identityRef := (tok.identity).getD identity }
        let st := { st with deviceRef := some newDeviceId }
        match registerResult with
        | Except.error e => (st, Except.error e)
        | Except.ok _ => (st, Except.ok newDeviceId)

/-! ### SDK event handlers attached by `initializeClient` (lines 268-323) -/

/-- Handler for `device.on('incoming')` (lines 268-278): track the pending
connection, enter `incoming`, surface the caller number, and reset flags, the
error and the note buffer. -/
def deviceIncomingHandler (env : Env) (conn : ConnObj) (w : World) : World :=
  let caller := (normalisePhoneNumber conn.paramsFrom).orElse fun _ => conn.paramsFrom
  pushEventW env ("Incoming call from " ++ caller.getD "unknown")
    { w with ctrl := { w.ctrl with
        incomingConn := some conn
        callState := CallState.incoming
        incomingNumber := caller
        activeNumber := none
        isMuted := false
        isOnHold := false
        lastError := none
        callNoteRef := "" } }

/-- Handler attached once on the incoming connection's `cancel` event
(lines 279-286): state is touched only if the cancelled connection is still
the tracked incoming one (`incomingConnectionRef.current === connection`). -/
def incomingCancelHandler (env : Env) (conn : ConnObj) (w : World) : World :=
  let w := pushEventW env "Incoming call cancelled by remote party" w
  match w.ctrl.incomingConn with
  | some tracked =>
    if tracked.cid = conn.cid then
      { w with ctrl := { w.ctrl with
          incomingConn := none
          callState := CallState.idle
          incomingNumber := none } }
    else w
  | none => w

/-- Handler attached once on the incoming connection's `reject` event
(lines 287-294), with the same identity guard as `cancel`. -/
def incomingRejectHandler (env : Env) (conn : ConnObj) (w : World) : World :=
  let w := pushEventW env "Incoming call rejected" w
  match w.ctrl.incomingConn with
  | some tracked =>
    if tracked.cid = conn.cid then
      { w with ctrl := { w.ctrl with
          incomingConn := none
          callState := CallState.idle
          incomingNumber := none } }
    else w
  | none => w

/-- Handler for `device.on('connect')` (lines 297-307): track the connection
as active, enter `active`, read the SDK's mute/hold state
(`connection.isMuted?.() ?? false`), stamp `activeCallStartedAtRef` with
`Date.now()`, and resolve the display number `To ?? activeNumber`. -/
def deviceConnectHandler (env : Env) (conn : ConnObj) (w : World) : World :=
  let toNumber := (conn.paramsTo).orElse fun _ => w.ctrl.activeNumber
  pushEventW env ("Call connected with " ++ toNumber.getD "unknown destination")
    { w with ctrl := { w.ctrl with
        activeConn := some conn
        callState := CallState.active
        isMuted := if conn.hasIsMuted then conn.muted else false
        isOnHold := if conn.hasIsOnHold then conn.held else false
        lastError := none
        incomingNumber := none
        activeCallStartedAtRef := some env.now
        activeNumber := toNumber } }

/-- Handler attached once on the connected connection's `disconnect` event
(lines 308-316): unconditionally clears the active ref, enters `completed`,
resets both flags and finalizes the log — note there is no check that the
disconnecting connection is the one currently tracked. -/
def connectDisconnectHandler (env : Env) (conn : ConnObj) (w : World) : World :=
  let w := pushEventW env "Call disconnected" w
  let w := { w with ctrl := { w.ctrl with
      activeConn := none
      callState := CallState.completed
      isMuted := false
      isOnHold := false
      activeNumber := none } }
  finalizeActiveLog env "completed" none w

/-- Handler attached once on the connected connection's `error` event
(lines 317-322): records `lastError` and finalizes the log as failed —
again without any identity check, and without touching `callState`. -/
def connectErrorHandler (env : Env) (conn : ConnObj) (errMsg : Option String)
    (w : World) : World :=
  let message := errMsg.getD "Call error"
  let w := pushEventW env ("Call error: " ++ message) w
  let w := { w with ctrl := { w.ctrl with lastError := some message } }
  finalizeActiveLog env "failed" (some message) w

/-! ### Outbound calls (`makeCall`, lines 341-412) and its connection handlers -/

/-- Handler attached once on the outbound connection's `ringing` event
(lines 384-387). -/
def makeCallRingingHandler (env : Env) (w : World) : World :=
  pushEventW env "Call ringing"
    { w with ctrl := { w.ctrl with callState := CallState.ringing } }

/-- Handler attached once on the outbound connection's `cancel` event
(lines 389-393): enters `failed` and finalizes with status `cancelled` —
without resetting the mute/hold flags. -/
def makeCallCancelHandler (env : Env) (w : World) : World :=
  let w := pushEventW env "Call cancelled" w
  let w := { w with ctrl := { w.ctrl with callState := CallState.failed } }
  finalizeActiveLog env "cancelled" none w

/-- Handler attached once on the outbound connection's `reject` event
(lines 395-399): enters `failed` and finalizes with status `failed` —
without resetting the mute/hold flags. -/
def makeCallRejectHandler (env : Env) (w : World) : World :=
  let w := pushEventW env "Call rejected by Twilio" w
  let w := { w with ctrl := { w.ctrl with callState := CallState.failed } }
  finalizeActiveLog env "failed" (some "rejected") w

/-- Handler attached once on the outbound connection's `error` event
(lines 401-407): records the error, enters `failed` and finalizes — without
resetting the mute/hold flags. -/
def makeCallErrorHandler (env : Env) (errMsg : Option String) (w : World) : World :=
  let message := errMsg.getD "Call error"
  let w := { w with ctrl := { w.ctrl with
      lastError := some message
      callState := CallState.failed } }
  let w := pushEventW env ("Call error: " ++ message) w
  finalizeActiveLog env "failed" (some message) w

/-- The destination normalisation of `makeCall` (line 353): keep the trimmed
input when it starts with `+`, otherwise strip everything outside `[0-9+]`. -/
def normaliseDestination (trimmed : String) : String :=
  match trimmed.data with
  | '+' :: _ => trimmed
  | _ => String.mk (trimmed.data.filter fun c => c.isDigit || c = '+')

/-- `makeCall(destination)` (lines 341-412): throws without a user; returns
`false` (with `lastError` set) on a blank destination; awaits
`initializeClient` — rejecting with its error when it fails — and only then
transitions to `connecting`, resets flags and note, best-effort creates the
call-log record (`logResult`; a failure is only logged to the console), pushes
the dialling event, starts the SDK connection (`newConn`) and tracks it.
The `ringing`/`cancel`/`reject`/`error` handlers it attaches are the
transitions above. -/
def makeCall (env : Env) (tokenResult : Except String TokenResp)
    (newDeviceId : Nat) (registerResult : Except String Unit)
    (logResult : Except String String) (newConn : ConnObj)
    (destination : String) (w : World) : World × Except String Bool :=
  match env.user with
  | none => (w, Except.error "You must be signed in to place calls")
  | some _ =>
    let trimmed := jsTrim destination
    if trimmed = "" then
      ({ w with ctrl := { w.ctrl with lastError := some "Enter a number to call" } },
        Except.ok false)
    else
      match initializeClientSeq env tokenResult newDeviceId registerResult w.ctrl with
      | (st, Except.error e) => ({ w with ctrl := st }, Except.error e)
      | (st, Except.ok _) =>
        let destNumber := normaliseDestination trimmed
        let st := { st with
          callNoteRef := ""
          callState := CallState.connecting
          activeNumber := some destNumber
          isMuted := false
          isOnHold := false
          incomingNumber := none
          lastError := none }
        let st :=
          match logResult with
          | Except.ok logId => { st with activeLogIdRef := some logId }
          | Except.error _ => st
        let st := { st with
          events := pushEvent env.eid env.now ("Dialling " ++ destNumber) st.events }
        let st := { st with activeConn := some newConn }
        ({ w with ctrl := st }, Except.ok true)

/-- `hangUp` (lines 414-431): disconnect the connection and the device (SDK
side effects that later deliver a `disconnect` event), finalize the log as
`completed`, return to `idle`, reset flags and numbers and clear the note —
note that `activeConnectionRef` is NOT cleared here. -/
def hangUp (env : Env) (w : World) : World :=
  let w := finalizeActiveLog env "completed" none w
  { w with ctrl := { w.ctrl with
      callState := CallState.idle
      isMuted := false
      isOnHold := false
      activeNumber := none
      incomingNumber := none
      callNoteRef := "" } }

/-! ### Media controls (lines 494-551) -/

/-- `toggleMute` (lines 494-509): `false` without an active connection;
otherwise flip `!(connection.isMuted?.() ?? isMuted)` through the SDK — on an
SDK throw the flag is left unchanged, the failure is recorded. -/
def toggleMute (env : Env) (w : World) : World × Bool :=
  match w.ctrl.activeConn with
  | none => (w, false)
  | some conn =>
    let nextMuted := !(if conn.hasIsMuted then conn.muted else w.ctrl.isMuted)
    if conn.muteFails then
      (pushEventW env ("Mute toggle failed: " ++ conn.failMsg)
        { w with ctrl := { w.ctrl with lastError := some conn.failMsg } }, false)
    else
      (pushEventW env (if nextMuted then "Call muted" else "Call unmuted")
        { w with ctrl := { w.ctrl with
            activeConn := some { conn with muted := nextMuted }
            isMuted := nextMuted } }, true)

/-- `toggleHold` (lines 511-530): `false` without an active connection;
otherwise flip `!(connection.isOnHold?.() ?? isOnHold)`; when the connection
has no `hold` function a local error is thrown and caught, and when `hold`
itself throws the flag is likewise left unchanged. -/
def toggleHold (env : Env) (w : World) : World × Bool :=
  match w.ctrl.activeConn with
  | none => (w, false)
  | some conn =>
    let nextHold := !(if conn.hasIsOnHold then conn.held else w.ctrl.isOnHold)
    if conn.hasHold then
      if conn.holdFails then
        (pushEventW env ("Hold toggle failed: " ++ conn.failMsg)
          { w with ctrl := { w.ctrl with lastError := some conn.failMsg } }, false)
      else
        (pushEventW env (if nextHold then "Call placed on hold" else "Call resumed")
          { w with ctrl := { w.ctrl with
              activeConn := some { conn with held := nextHold }
              isOnHold := nextHold } }, true)
    else
      (pushEventW env "Hold toggle failed: Hold is not supported for this call"
        { w with ctrl := { w.ctrl with
            lastError := some "Hold is not supported for this call" } }, false)

/-- The tone alphabet actually kept by `sendDigits` (line 535): the regex
`/[^0-9A-D#*]/gi` carries the `i` flag, so the character class is
case-insensitive and the lowercase letters `a`-`d` are kept as well. -/
def toneChar (c : Char) : Bool :=
  ('0' ≤ c && c ≤ '9') || ('A' ≤ c && c ≤ 'D') || ('a' ≤ c && c ≤ 'd') ||
    c = '#' || c = '*'

/-- The tone alphabet as the specification states it: `[0-9A-D#*]`,
uppercase only.  (Modelled from the spec's words, for comparison with
`toneChar` above.) -/
def toneCharSpec (c : Char) : Bool :=
  ('0' ≤ c && c ≤ '9') || ('A' ≤ c && c ≤ 'D') || c = '#' || c = '*'

/-- The sanitization of `sendDigits`: remove every character the
(case-insensitive) class rejects. -/
def sanitizeDigits (s : String) : String :=
  String.mk (s.data.filter toneChar)

/-- `sendDigits(digits)` (lines 532-547): `false` without an active
connection or when nothing survives sanitization; otherwise transmit the
cleaned tones, catching an SDK throw and returning `false`.  The function is
total — every path returns a Boolean, nothing escapes. -/
def sendDigits (env : Env) (digits : String) (w : World) : World × Bool :=
  match w.ctrl.activeConn with
  | none => (w, false)
  | some conn =>
    let cleaned := sanitizeDigits digits
    if cleaned = "" then (w, false)
    else if conn.sendDigitsFails then
      (pushEventW env ("DTMF failed: " ++ conn.failMsg)
        { w with ctrl := { w.ctrl with lastError := some conn.failMsg } }, false)
    else
      (pushEventW env ("Sent DTMF " ++ cleaned)
        { w with sent := w.sent ++ [cleaned] }, true)

/-- `setCallNote` (lines 549-551): purely local note buffer. -/
def setCallNote (note : String) (w : World) : World :=
  { w with ctrl := { w.ctrl with callNoteRef := note } }

/-! ### Claim C1: concurrent `initializeClient` calls

`initializeClient` suspends twice: at `await fetchAccessToken(...)` (line 226)
and at `await device.register()` (line 329).  The step machine below gives each
concurrent caller a program counter over the three atomic segments between
those suspension points, and a scheduler interleaves the callers; both awaited
externals succeed.  Only the state the claim observes is carried: `deviceRef`
and `isClientReady` (shared), the number of `new Device(...)` constructions
and of `register()` calls, and each caller's resolved device. -/

/-- Program counter of one `initializeClient` caller: before the entry
segment, suspended on the token fetch, suspended on `register()`, finished. -/
inductive InitPc
  | entry
  | tokenWait
  | regWait
  | done
deriving DecidableEq, Repr

/-- One in-flight `initializeClient` call: its program counter, its local
`device` variable, and its resolved value once finished. -/
structure InitRun where
  pc : InitPc
  dev : Option Nat
  result : Option Nat
deriving DecidableEq, Repr

/-- The shared state the interleaved callers race on. -/
structure InitSys where
  deviceRef : Option Nat
  isClientReady : Bool
  ctorCount : Nat
  regCount : Nat
  nextId : Nat
deriving DecidableEq, Repr

/-- Scheduler state: the shared cell plus every caller. -/
structure InitWorld where
  sys : InitSys
  runs : List InitRun
deriving DecidableEq, Repr

/-- One atomic segment of one caller.
`entry` (lines 207-226): return the existing device when ready, otherwise
clear a stale device and start the token fetch.
`tokenWait` (lines 227-329): the fetch resolved; construct the `Device`
(`ctorCount` increments, the new identity is `nextId`), overwrite `deviceRef`,
and call `register()` (`regCount` increments), suspending on its result.
`regWait` (line 331): `register()` resolved; the caller resolves to its own
local `device`. -/
def initStepRun (sys : InitSys) (r : InitRun) : InitSys × InitRun :=
  match r.pc with
  | InitPc.entry =>
    if sys.deviceRef.isSome && sys.isClientReady then
      (sys, { r with pc := InitPc.done, result := some (sys.deviceRef.getD 0) })
    else
      let sys :=
        if sys.deviceRef.isSome then
          { sys with deviceRef := none, isClientReady := false }
        else sys
      (sys, { r with pc := InitPc.tokenWait })
  | InitPc.tokenWait =>
    let newId := sys.nextId
    ({ sys with
        ctorCount := sys.ctorCount + 1
        nextId := newId + 1
        deviceRef := some newId
        regCount := sys.regCount + 1 },
      { r with pc := InitPc.regWait, dev := some newId })
  | InitPc.regWait => (sys, { r with pc := InitPc.done, result := r.dev })
  | InitPc.done => (sys, r)

/-- Run the scheduled caller one segment. -/
def initStep (w : InitWorld) (i : Nat) : InitWorld :=
  match w.runs.get? i with
  | none => w
  | some r =>
    let p := initStepRun w.sys r
    { sys := p.1, runs := w.runs.set i p.2 }

/-- Run a whole schedule of caller indices. -/
def initRunSchedule (w : InitWorld) (sched : List Nat) : InitWorld :=
  sched.foldl initStep w

/-- A fresh caller that has just invoked `initializeClient`. -/
def initFreshRun : InitRun :=
  { pc := InitPc.entry, dev := none, result := none }

/-- Two back-to-back `initializeClient` calls before any device exists. -/
def initTwoCalls (c rg n : Nat) : InitWorld :=
  { sys := { deviceRef := none, isClientReady := false, ctorCount := c,
             regCount := rg, nextId := n },
    runs := [initFreshRun, initFreshRun] }

/-- The natural interleaving of two back-to-back calls with no await between
them: each runs to its next suspension point, then each resumes in turn. -/
def backToBackSched : List Nat := [0, 1, 0, 1, 0, 1]

/-- Counterexample to claim C1: two back-to-back `initializeClient` calls with
no await between them construct TWO `Device` clients, issue TWO `register()`
calls, and resolve to two DIFFERENT instances (identities 0 and 1) — the code
has no single-flight gate, only the `deviceRef && isClientReady` early return,
which neither caller passes before readiness. -/
theorem c1_counterexample :
    (initRunSchedule (initTwoCalls 0 0 0) backToBackSched).sys.ctorCount = 2 ∧
    (initRunSchedule (initTwoCalls 0 0 0) backToBackSched).sys.regCount = 2 ∧
    (initRunSchedule (initTwoCalls 0 0 0) backToBackSched).runs.map InitRun.result =
      [some 0, some 1] := by
  refine ⟨rfl, rfl, rfl⟩

/-- Claim C1, amended to what the code does: a caller that finds the device
ready resolves immediately to the existing instance, constructing nothing and
registering nothing; but two back-to-back calls issued before readiness each
construct a `Device` and each call `register()`, and they resolve to the two
distinct identities `n` and `n + 1`. -/
theorem c1_initialize_not_single_flight (c rg n : Nat) (sys : InitSys)
    (r : InitRun) (d : Nat) (hd : sys.deviceRef = some d)
    (hready : sys.isClientReady = true) (hpc : r.pc = InitPc.entry) :
    initStepRun sys r = (sys, { r with pc := InitPc.done, result := some d }) ∧
    (initRunSchedule (initTwoCalls c rg n) backToBackSched).sys.ctorCount = c + 2 ∧
    (initRunSchedule (initTwoCalls c rg n) backToBackSched).sys.regCount = rg + 2 ∧
    (initRunSchedule (initTwoCalls c rg n) backToBackSched).runs.map InitRun.result =
      [some n, some (n + 1)] ∧
    n ≠ n + 1 := by
  refine ⟨?_, ?_, ?_, ?_, by omega⟩
  · unfold initStepRun
    rw [hpc]
    simp [hd, hready]
  · simp [initRunSchedule, backToBackSched, initTwoCalls, initFreshRun,
      initStep, initStepRun, List.foldl]
  · simp [initRunSchedule, backToBackSched, initTwoCalls, initFreshRun,
      initStep, initStepRun, List.foldl]
  · simp [initRunSchedule, backToBackSched, initTwoCalls, initFreshRun,
      initStep, initStepRun, List.foldl]

/-- Witness for `c1_initialize_not_single_flight`: with a ready device `5`, a
fresh caller resolves to `5` immediately, while the two-caller race from a
fresh system still constructs two devices. -/
theorem c1_initialize_not_single_flight_witness :
    initStepRun
      { deviceRef := some 5, isClientReady := true, ctorCount := 1, regCount := 1, nextId := 6 }
      initFreshRun =
      ({ deviceRef := some 5, isClientReady := true, ctorCount := 1, regCount := 1, nextId := 6 },
        { initFreshRun with pc := InitPc.done, result := some 5 }) ∧
    (initRunSchedule (initTwoCalls 0 0 0) backToBackSched).sys.ctorCount = 0 + 2 := by
  have h := c1_initialize_not_single_flight 0 0 0
    { deviceRef := some 5, isClientReady := true, ctorCount := 1, regCount := 1, nextId := 6 }
    initFreshRun 5 rfl rfl rfl
  exact ⟨h.1, h.2.1⟩

/-! ### Preservation helpers -/

/-- `finalizeActiveLog` only touches the log refs, the note buffer, the event
feed and the write list: call state, flags and connection refs pass through. -/
theorem finalizeActiveLog_preserves (env : Env) (status : String)
    (extraReason : Option String) (w : World) :
    (finalizeActiveLog env status extraReason w).ctrl.callState = w.ctrl.callState ∧
    (finalizeActiveLog env status extraReason w).ctrl.isMuted = w.ctrl.isMuted ∧
    (finalizeActiveLog env status extraReason w).ctrl.isOnHold = w.ctrl.isOnHold ∧
    (finalizeActiveLog env status extraReason w).ctrl.activeConn = w.ctrl.activeConn ∧
    (finalizeActiveLog env status extraReason w).ctrl.incomingConn = w.ctrl.incomingConn := by
  unfold finalizeActiveLog
  cases env.user with
  | none => exact ⟨rfl, rfl, rfl, rfl, rfl⟩
  | some u =>
    cases hl : w.ctrl.activeLogIdRef with
    | none => exact ⟨rfl, rfl, rfl, rfl, rfl⟩
    | some lid =>
      dsimp only
      split <;> simp [pushEventW]

/-- The sequential `initializeClient` never touches call state or the
mute/hold flags, on any of its paths (including the failing ones). -/
theorem initializeClientSeq_preserves (env : Env)
    (tokenResult : Except String TokenResp) (newDeviceId : Nat)
    (registerResult : Except String Unit) (st : ControllerState) :
    (initializeClientSeq env tokenResult newDeviceId registerResult st).1.callState = st.callState ∧
    (initializeClientSeq env tokenResult newDeviceId registerResult st).1.isMuted = st.isMuted ∧
    (initializeClientSeq env tokenResult newDeviceId registerResult st).1.isOnHold = st.isOnHold := by
  unfold initializeClientSeq
  cases env.user with
  | none => exact ⟨rfl, rfl, rfl⟩
  | some u =>
    dsimp only
    split
    · exact ⟨rfl, rfl, rfl⟩
    · cases tokenResult with
      | error e =>
        dsimp only
        split <;> simp [clearDevice]
      | ok tok =>
        cases registerResult with
        | error e =>
          dsimp only
          split <;> simp [clearDevice]
        | ok x =>
          dsimp only
          split <;> simp [clearDevice]

/-! ### Claim C2: `makeCall` before readiness -/

/-- Shared environment builder for the concrete scenario worlds below. -/
def envAt (now : Nat) (eid : String) : Env :=
  { user := some { uid := "u1", email := none }, now := now, eid := eid, persistOk := true }

/-- A successful token response used where the token fetch succeeds. -/
def tokOk : Except String TokenResp :=
  Except.ok { token := "tok", identity := none, expiresIn := some 3600 }

/-- An idle controller world whose device is registered and ready. -/
def readyWorld : World :=
  { ctrl := { connState := ConnectionState.registered
              connMessage := "Twilio device ready"
              callState := CallState.idle
              events := []
              isClientReady := true
              isMuted := false
              isOnHold := false
              lastError := none
              incomingNumber := none
              activeNumber := none
              identityRef := "agent"
              deviceRef := some 0
              activeConn := none
              incomingConn := none
              activeLogIdRef := none
              activeCallStartedAtRef := none
              callNoteRef := "" }
    writes := []
    sent := [] }

/-- Like `readyWorld` but with no device at all: the not-ready starting
point. -/
def unreadyWorld : World :=
  { readyWorld with ctrl := { readyWorld.ctrl with
      connState := ConnectionState.idle
      connMessage := "Twilio client not initialised"
      isClientReady := false
      deviceRef := none } }

/-- An ordinary outbound connection object delivered by the SDK. -/
def mkConn (cid : Nat) (toNumber : String) : ConnObj :=
  { cid := cid, muted := false, held := false, hasIsMuted := true,
    hasIsOnHold := true, hasHold := true, muteFails := false,
    holdFails := false, sendDigitsFails := false, failMsg := "",
    paramsFrom := none, paramsTo := some toNumber }

/-- Counterexample to claim C2: `makeCall` invoked while the device is NOT
ready (no device, `isClientReady = false`) does not reject at all — it
initializes the device on demand and proceeds: the call resolves `ok true`
and the state transitions to `connecting`.  No `NotReadyError` exists
anywhere in the code. -/
theorem c2_counterexample :
    unreadyWorld.ctrl.isClientReady = false ∧
    (makeCall (envAt 1000 "e0") tokOk 7 (Except.ok ()) (Except.ok "log1")
      (mkConn 1 "+12025550123") "+12025550123" unreadyWorld).2 = Except.ok true ∧
    (makeCall (envAt 1000 "e0") tokOk 7 (Except.ok ()) (Except.ok "log1")
      (mkConn 1 "+12025550123") "+12025550123" unreadyWorld).1.ctrl.callState =
      CallState.connecting := by
  refine ⟨rfl, rfl, rfl⟩

/-- Claim C2, amended to what the code does: `makeCall` does not require a
pre-ready device and never rejects merely because the device is not ready; it
rejects exactly when no user is signed in or when its on-demand
initialization fails, and then the rejection reaches the immediate caller
with the initialization error while `callState` and the mute/hold flags are
left unchanged; `makeCall` sets `callState` to `connecting` only when it
returns `ok true`, i.e. only after initialization succeeded. -/
theorem c2_makecall_amended (env : Env) (tokenResult : Except String TokenResp)
    (newDeviceId : Nat) (registerResult : Except String Unit)
    (logResult : Except String String) (newConn : ConnObj)
    (destination : String) (w : World) :
    (env.user = none →
      makeCall env tokenResult newDeviceId registerResult logResult newConn destination w =
        (w, Except.error "You must be signed in to place calls")) ∧
    (∀ e : String, env.user.isSome = true → jsTrim destination ≠ "" →
      (initializeClientSeq env tokenResult newDeviceId registerResult w.ctrl).2 =
        Except.error e →
      (makeCall env tokenResult newDeviceId registerResult logResult newConn destination w).2 =
        Except.error e ∧
      (makeCall env tokenResult newDeviceId registerResult logResult newConn destination w).1.ctrl.callState =
        w.ctrl.callState ∧
      (makeCall env tokenResult newDeviceId registerResult logResult newConn destination w).1.ctrl.isMuted =
        w.ctrl.isMuted ∧
      (makeCall env tokenResult newDeviceId registerResult logResult newConn destination w).1.ctrl.isOnHold =
        w.ctrl.isOnHold) ∧
    ((makeCall env tokenResult newDeviceId registerResult logResult newConn destination w).2 =
        Except.ok true →
      (makeCall env tokenResult newDeviceId registerResult logResult newConn destination w).1.ctrl.callState =
        CallState.connecting) := by
  refine ⟨?_, ?_, ?_⟩
  · intro hu
    simp [makeCall, hu]
  · intro e hu htrim hinit
    obtain ⟨u, hu⟩ := Option.isSome_iff_exists.mp hu
    have hpres := initializeClientSeq_preserves env tokenResult newDeviceId registerResult w.ctrl
    rcases hseq : initializeClientSeq env tokenResult newDeviceId registerResult w.ctrl
      with ⟨st, res⟩
    rw [hseq] at hinit hpres
    dsimp only at hinit hpres
    subst hinit
    simp only [makeCall, hu, if_neg htrim, hseq]
    exact ⟨trivial, hpres.1, hpres.2.1, hpres.2.2⟩
  · intro hok
    rcases hu : env.user with - | u
    · rw [makeCall, hu] at hok
      exact absurd hok (by simp)
    · by_cases htrim : jsTrim destination = ""
      · rw [makeCall, hu] at hok
        simp only [htrim, if_pos rfl] at hok
        exact absurd hok (by simp)
      · rcases hseq : initializeClientSeq env tokenResult newDeviceId registerResult w.ctrl
          with ⟨st, res⟩
        cases res with
        | error e =>
          rw [makeCall, hu] at hok
          simp only [if_neg htrim, hseq] at hok
          exact absurd hok (by simp)
        | ok dev =>
          rw [makeCall, hu]
          simp only [if_neg htrim, hseq]
          cases logResult <;> rfl

/-- Witness for `c2_makecall_amended`: a failing token fetch makes `makeCall`
reject with the fetch error while the call state is untouched, and a
successful run lands in `connecting`. -/
theorem c2_makecall_amended_witness :
    (makeCall (envAt 1000 "e0") (Except.error "token endpoint down") 7 (Except.ok ())
      (Except.ok "log1") (mkConn 1 "+12025550123") "+12025550123" unreadyWorld).2 =
      Except.error "token endpoint down" ∧
    (makeCall (envAt 1000 "e0") (Except.error "token endpoint down") 7 (Except.ok ())
      (Except.ok "log1") (mkConn 1 "+12025550123") "+12025550123" unreadyWorld).1.ctrl.callState =
      unreadyWorld.ctrl.callState ∧
    (makeCall (envAt 1000 "e0") tokOk 7 (Except.ok ()) (Except.ok "log1")
      (mkConn 1 "+12025550123") "+12025550123" readyWorld).2 = Except.ok true := by
  have h := c2_makecall_amended (envAt 1000 "e0") (Except.error "token endpoint down") 7
    (Except.ok ()) (Except.ok "log1") (mkConn 1 "+12025550123") "+12025550123" unreadyWorld
  have h2 := (h.2.1 "token endpoint down" (by decide) (by decide) (by rfl))
  exact ⟨h2.1, h2.2.1, rfl⟩

/-! ### Claim C3: call-identity matching of state-affecting notifications -/

/-- First call of the C3 trace: dial out on a ready device (log `logA`,
connection identity 1), let the SDK report it connected, then hang up.
`hangUp` finalizes `logA` but deliberately mirrors the source in NOT clearing
`activeConnectionRef`, and connection 1's once-attached `disconnect` handler
has not yet fired. -/
def c3AfterHangUp : World :=
  hangUp (envAt 6000 "e2")
    (deviceConnectHandler (envAt 2000 "e1") (mkConn 1 "+12025550123")
      (makeCall (envAt 1000 "e0") tokOk 7 (Except.ok ()) (Except.ok "logA")
        (mkConn 1 "+12025550123") "+12025550123" readyWorld).1)

/-- Second call of the C3 trace: a new outbound call (log `logB`, connection
identity 2) started immediately after the hang-up, before the SDK delivered
connection 1's `disconnect` event. -/
def c3SecondCall : World :=
  (makeCall (envAt 7000 "e3") tokOk 7 (Except.ok ()) (Except.ok "logB")
    (mkConn 2 "+15550111") "+15550111" c3AfterHangUp).1

/-- Counterexample to claim C3: while the controller tracks the NEW call
(connection 2, state `connecting`, pending log `logB`), the stale `disconnect`
notification of the already-replaced connection 1 is delivered — and, having
no identity check, it flips the new call's state to `completed`, drops its
tracked connection and finalizes the new call's log `logB`. -/
theorem c3_counterexample :
    c3SecondCall.ctrl.activeConn = some (mkConn 2 "+15550111") ∧
    c3SecondCall.ctrl.callState = CallState.connecting ∧
    c3SecondCall.ctrl.activeLogIdRef = some "logB" ∧
    (mkConn 1 "+12025550123").cid ≠ (mkConn 2 "+15550111").cid ∧
    (connectDisconnectHandler (envAt 7500 "e4") (mkConn 1 "+12025550123") c3SecondCall).ctrl.callState =
      CallState.completed ∧
    (connectDisconnectHandler (envAt 7500 "e4") (mkConn 1 "+12025550123") c3SecondCall).ctrl.activeConn =
      none ∧
    (connectDisconnectHandler (envAt 7500 "e4") (mkConn 1 "+12025550123") c3SecondCall).writes.map
      Prod.fst = ["logA", "logB"] := by
  exact ⟨rfl, rfl, rfl, by decide, rfl, rfl, rfl⟩

/-- Claim C3, amended to what the code does: the identity rule holds for the
incoming-call `cancel`/`reject` notifications — they change the tracked state
only when the notification's connection is the tracked incoming one — but the
`disconnect`/`error` handlers attached on connect apply unconditionally
(they ignore which connection fired), so a stale disconnect from a replaced
call does alter the state of a newly started call. -/
theorem c3_identity_guard_amended (env : Env) (conn conn2 : ConnObj)
    (errMsg : Option String) (w : World)
    (hmiss : ∀ tracked : ConnObj, w.ctrl.incomingConn = some tracked →
      tracked.cid ≠ conn.cid) :
    ((incomingCancelHandler env conn w).ctrl.callState = w.ctrl.callState ∧
     (incomingCancelHandler env conn w).ctrl.incomingConn = w.ctrl.incomingConn ∧
     (incomingCancelHandler env conn w).ctrl.incomingNumber = w.ctrl.incomingNumber) ∧
    ((incomingRejectHandler env conn w).ctrl.callState = w.ctrl.callState ∧
     (incomingRejectHandler env conn w).ctrl.incomingConn = w.ctrl.incomingConn ∧
     (incomingRejectHandler env conn w).ctrl.incomingNumber = w.ctrl.incomingNumber) ∧
    connectDisconnectHandler env conn w = connectDisconnectHandler env conn2 w ∧
    (connectDisconnectHandler env conn w).ctrl.callState = CallState.completed ∧
    connectErrorHandler env conn errMsg w = connectErrorHandler env conn2 errMsg w := by
  refine ⟨?_, ?_, rfl, ?_, rfl⟩
  · unfold incomingCancelHandler
    cases hin : w.ctrl.incomingConn with
    | none => simp [pushEventW, hin]
    | some tracked =>
      simp only [pushEventW, hin]
      rw [if_neg (hmiss tracked hin)]
      exact ⟨rfl, rfl, rfl⟩
  · unfold incomingRejectHandler
    cases hin : w.ctrl.incomingConn with
    | none => simp [pushEventW, hin]
    | some tracked =>
      simp only [pushEventW, hin]
      rw [if_neg (hmiss tracked hin)]
      exact ⟨rfl, rfl, rfl⟩
  · unfold connectDisconnectHandler
    have h := finalizeActiveLog_preserves env "completed" none
      { w with ctrl := { (pushEventW env "Call disconnected" w).ctrl with
          activeConn := none
          callState := CallState.completed
          isMuted := false
          isOnHold := false
          activeNumber := none } }
    simp only [pushEventW] at h ⊢
    rw [h.1]

/-- Witness for `c3_identity_guard_amended`: a cancel notification for
connection 9 while connection 2 is the tracked incoming call leaves the
state untouched, and any stale disconnect still forces `completed`. -/
theorem c3_identity_guard_amended_witness :
    (incomingCancelHandler (envAt 1 "e") (mkConn 9 "+1")
      (deviceIncomingHandler (envAt 0 "e") (mkConn 2 "+15550111") readyWorld)).ctrl.callState =
      (deviceIncomingHandler (envAt 0 "e") (mkConn 2 "+15550111") readyWorld).ctrl.callState ∧
    (connectDisconnectHandler (envAt 1 "e") (mkConn 9 "+1")
      (deviceIncomingHandler (envAt 0 "e") (mkConn 2 "+15550111") readyWorld)).ctrl.callState =
      CallState.completed := by
  have h := c3_identity_guard_amended (envAt 1 "e") (mkConn 9 "+1") (mkConn 3 "+2") none
    (deviceIncomingHandler (envAt 0 "e") (mkConn 2 "+15550111") readyWorld)
    (by intro tracked htr; injection htr with htr; rw [← htr]; decide)
  exact ⟨h.1.1, h.2.2.2.1⟩

/-! ### Claim C5: outbound scenario on a ready device -/

/-- Scenario trace of claim C5 on the ready device: dial, `ringing` event,
device `connect` event (call starts at `now = 2000`), `hangUp` at
`now = 7000` (which also triggers the SDK's `disconnect`), and the delivery
of that `disconnect` notification. -/
def c5Dialled : World :=
  (makeCall (envAt 1000 "e0") tokOk 7 (Except.ok ()) (Except.ok "log1")
    (mkConn 1 "+12025550123") "+12025550123" readyWorld).1

/-- C5 trace after the `ringing` notification. -/
def c5Ringing : World := makeCallRingingHandler (envAt 1500 "e1") c5Dialled

/-- C5 trace after the device `connect` notification. -/
def c5Active : World := deviceConnectHandler (envAt 2000 "e2") (mkConn 1 "+12025550123") c5Ringing

/-- C5 trace after `hangUp()` (the SDK `disconnect` it triggers is delivered
next). -/
def c5HungUp : World := hangUp (envAt 7000 "e3") c5Active

/-- C5 trace after the SDK delivers the `disconnect` notification that
`hangUp` triggered. -/
def c5Final : World := connectDisconnectHandler (envAt 7050 "e4") (mkConn 1 "+12025550123") c5HungUp

/-- Claim C5: on a ready device `makeCall` produces the state sequence
`connecting → ringing → active` as the SDK events arrive, and a subsequent
`hangUp()` leaves the call in `completed` (via the `disconnect` notification
that the hang-up triggers) with the call log finalized exactly once, with
status `completed` (and here a 5-second duration for the 5000 ms the call was
connected). -/
theorem c5_outbound_call_scenario :
    c5Dialled.ctrl.callState = CallState.connecting ∧
    c5Ringing.ctrl.callState = CallState.ringing ∧
    c5Active.ctrl.callState = CallState.active ∧
    c5Final.ctrl.callState = CallState.completed ∧
    c5Final.writes.map Prod.fst = ["log1"] ∧
    c5Final.writes.map (fun p => p.2.status) = ["completed"] ∧
    c5Final.writes.map (fun p => p.2.durationSeconds) = [5] := by
  exact ⟨rfl, rfl, rfl, rfl, rfl, rfl, by decide⟩

/-! ### Claim C6: terminal states and the mute/hold flags -/

/-- C6 trace: dial on the ready device, let the call connect, then mute it
successfully — the controller now shows `active` with `isMuted = true` while
connection 1 still carries the once-attached `cancel`/`reject`/`error`
handlers from `makeCall`. -/
def c6MutedActive : World :=
  (toggleMute (envAt 3000 "e2")
    (deviceConnectHandler (envAt 2000 "e1") (mkConn 1 "+12025550123")
      (makeCall (envAt 1000 "e0") tokOk 7 (Except.ok ()) (Except.ok "log1")
        (mkConn 1 "+12025550123") "+12025550123" readyWorld).1)).1

/-- Counterexample to claim C6: from the muted active call, the outbound
connection's `error` notification drives the call into the terminal state
`failed` — but the `isMuted` flag stays `true`: the `cancel`/`reject`/`error`
paths of `makeCall` never reset the flags. -/
theorem c6_counterexample :
    c6MutedActive.ctrl.callState = CallState.active ∧
    c6MutedActive.ctrl.isMuted = true ∧
    (makeCallErrorHandler (envAt 4000 "e3") (some "connection dropped") c6MutedActive).ctrl.callState =
      CallState.failed ∧
    (makeCallErrorHandler (envAt 4000 "e3") (some "connection dropped") c6MutedActive).ctrl.isMuted =
      true := by
  exact ⟨rfl, rfl, rfl, rfl⟩

/-- Claim C6, amended to what the code does: entering `completed` through the
connect-`disconnect` handler resets both flags to `false` (as does `hangUp`),
but the `cancel`/`reject`/`error` handlers of `makeCall` enter `failed`
leaving `isMuted` and `isOnHold` exactly as they were. -/
theorem c6_terminal_flags_amended (env : Env) (conn : ConnObj)
    (errMsg : Option String) (w : World) :
    ((connectDisconnectHandler env conn w).ctrl.isMuted = false ∧
     (connectDisconnectHandler env conn w).ctrl.isOnHold = false) ∧
    ((hangUp env w).ctrl.isMuted = false ∧ (hangUp env w).ctrl.isOnHold = false) ∧
    ((makeCallCancelHandler env w).ctrl.callState = CallState.failed ∧
     (makeCallCancelHandler env w).ctrl.isMuted = w.ctrl.isMuted ∧
     (makeCallCancelHandler env w).ctrl.isOnHold = w.ctrl.isOnHold) ∧
    ((makeCallRejectHandler env w).ctrl.callState = CallState.failed ∧
     (makeCallRejectHandler env w).ctrl.isMuted = w.ctrl.isMuted ∧
     (makeCallRejectHandler env w).ctrl.isOnHold = w.ctrl.isOnHold) ∧
    ((makeCallErrorHandler env errMsg w).ctrl.callState = CallState.failed ∧
     (makeCallErrorHandler env errMsg w).ctrl.isMuted = w.ctrl.isMuted ∧
     (makeCallErrorHandler env errMsg w).ctrl.isOnHold = w.ctrl.isOnHold) := by
  refine ⟨⟨?_, ?_⟩, ⟨rfl, rfl⟩, ⟨?_, ?_, ?_⟩, ⟨?_, ?_, ?_⟩, ⟨?_, ?_, ?_⟩⟩ <;>
    simp [connectDisconnectHandler, makeCallCancelHandler, makeCallRejectHandler,
      makeCallErrorHandler, pushEventW,
      (finalizeActiveLog_preserves _ _ _ _).1,
      (finalizeActiveLog_preserves _ _ _ _).2.1,
      (finalizeActiveLog_preserves _ _ _ _).2.2.1]

/-! ### Claim C8: DTMF sanitization -/

/-- A world with a live active call (connection 1), as `sendDigits` needs. -/
def activeCallWorld : World :=
  deviceConnectHandler (envAt 2000 "e1") (mkConn 1 "+12025550123")
    (makeCall (envAt 1000 "e0") tokOk 7 (Except.ok ()) (Except.ok "log1")
      (mkConn 1 "+12025550123") "+12025550123" readyWorld).1

/-- Counterexample to claim C8: the lowercase letter `b` lies outside the
claimed tone alphabet `[0-9A-D#*]`, so by the claim `sendDigits "b"` would
sanitize to the empty string and fail without transmitting — but the regex
carries the `i` flag, so the code keeps `b`, transmits it and reports
success. -/
theorem c8_counterexample :
    toneCharSpec 'b' = false ∧
    sanitizeDigits "b" = "b" ∧
    (sendDigits (envAt 3000 "e2") "b" activeCallWorld).2 = true ∧
    (sendDigits (envAt 3000 "e2") "b" activeCallWorld).1.sent = ["b"] := by
  exact ⟨rfl, rfl, rfl, rfl⟩

/-- Claim C8, amended to what the code does: `sendDigits` removes every
character outside the case-insensitive tone alphabet `[0-9A-Da-d#*]` before
transmitting; it returns failure, transmitting nothing, when no active call
exists or when nothing survives sanitization (e.g. `"xyz"`), and whenever it
reports failure nothing was transmitted; it never throws (every path,
including an SDK-level throw, is caught and returns a Boolean). -/
theorem c8_senddigits_amended (env : Env) (digits : String) (w : World) :
    (∀ c : Char, c ∈ (sanitizeDigits digits).data → toneChar c = true) ∧
    (w.ctrl.activeConn = none → sendDigits env digits w = (w, false)) ∧
    (sanitizeDigits digits = "" → (sendDigits env digits w).2 = false) ∧
    ((sendDigits env digits w).2 = false → (sendDigits env digits w).1.sent = w.sent) := by
  refine ⟨?_, ?_, ?_, ?_⟩
  · intro c hc
    exact (List.mem_filter.mp hc).2
  · intro hnone
    simp [sendDigits, hnone]
  · intro hempty
    unfold sendDigits
    cases hconn : w.ctrl.activeConn with
    | none => rfl
    | some conn => simp [hempty]
  · intro hfalse
    unfold sendDigits at hfalse ⊢
    cases hconn : w.ctrl.activeConn with
    | none => rfl
    | some conn =>
      rw [hconn] at hfalse
      dsimp only at hfalse ⊢
      by_cases hempty : sanitizeDigits digits = ""
      · rw [if_pos hempty]
      · rw [if_neg hempty] at hfalse ⊢
        by_cases hfail : conn.sendDigitsFails = true
        · rw [if_pos hfail]
          simp [pushEventW]
        · rw [if_neg hfail] at hfalse
          simp [pushEventW] at hfalse

/-- Witness for `c8_senddigits_amended`: `"xyz"` sanitizes to nothing and
fails, and a world with no active connection fails without transmitting. -/
theorem c8_senddigits_amended_witness :
    (sendDigits (envAt 0 "e") "xyz" activeCallWorld).2 = false ∧
    sendDigits (envAt 0 "e") "xyz" readyWorld = (readyWorld, false) ∧
    (sendDigits (envAt 0 "e") "xyz" activeCallWorld).1.sent = activeCallWorld.sent := by
  have h := c8_senddigits_amended (envAt 0 "e") "xyz" activeCallWorld
  have h2 := c8_senddigits_amended (envAt 0 "e") "xyz" readyWorld
  have hempty : sanitizeDigits "xyz" = "" := by decide
  have hfalse := h.2.2.1 hempty
  exact ⟨hfalse, h2.2.1 rfl, h.2.2.2 hfalse⟩

/-! ### Claim C9: toggleHold involution -/

/-- Claim C9: calling `toggleHold` twice in succession on an active call
returns the hold state to its original value — both the connection's SDK-side
hold state and the controller's `isOnHold` flag (which agree on an active
call) — whatever the connection's capabilities (with or without an `isOnHold`
getter or a working `hold`); and `toggleHold` with no active call is a no-op
returning failure and changing no flag. -/
theorem c9_togglehold_pair (env env2 : Env) (w : World) :
    (w.ctrl.activeConn = none → toggleHold env w = (w, false)) ∧
    (∀ conn : ConnObj, w.ctrl.activeConn = some conn →
      w.ctrl.isOnHold = conn.held →
      (toggleHold env2 (toggleHold env w).1).1.ctrl.isOnHold = w.ctrl.isOnHold ∧
      ((toggleHold env2 (toggleHold env w).1).1.ctrl.activeConn.map ConnObj.held) =
        some conn.held) := by
  constructor
  · intro hnone
    simp [toggleHold, hnone]
  · intro conn hconn hsync
    rcases conn with ⟨cid, cmuted, cheld, hIM, hIOH, hH, mF, hF, sF, fMsg, pF, pT⟩
    cases hH <;> cases hF <;> cases hIOH <;> cases cheld <;>
      simp_all [toggleHold, pushEventW]

/-- Witness for `c9_togglehold_pair`: on the live active call, two toggles
restore the un-held state, and with no call `toggleHold` is a failing no-op. -/
theorem c9_togglehold_pair_witness :
    (toggleHold (envAt 4 "e4")
      (toggleHold (envAt 3 "e3") activeCallWorld).1).1.ctrl.isOnHold =
      activeCallWorld.ctrl.isOnHold ∧
    toggleHold (envAt 3 "e3") readyWorld = (readyWorld, false) := by
  have h := c9_togglehold_pair (envAt 3 "e3") (envAt 4 "e4") activeCallWorld
  have h2 := c9_togglehold_pair (envAt 3 "e3") (envAt 4 "e4") readyWorld
  exact ⟨(h.2 (mkConn 1 "+12025550123") rfl rfl).1, h2.1 rfl⟩

end TwilioWeb
